import Mathlib

/-!
Verification of the marketpulse-server backend (src/index.js, final snapshot).

Conventions of the shallow embedding:
* Document collections are Lean lists inside a `DB` record; `findOne` is
  `List.find?`, `updateOne` updates the first match (`updateFirst`),
  `deleteOne` removes the first match (`eraseFirst`), `insertOne` appends.
* JavaScript numbers that the code feeds through `parseFloat` / `parseInt`
  are modelled as `Option ℚ` / `Option Int`, where `none` stands for a value
  on which the parse yields `NaN` (or the field being absent).
* HTTP responses are modelled by their status code (`Nat`); handlers that
  mutate state return `Nat × DB`.  `Math.round` is `jsRound` (round half up).
* The JWT primitive is opaque: a token records the payload email, the
  optional expiry claim and the key it was signed with; verification
  succeeds exactly when the key matches and the expiry (when present) has
  not passed.
-/

namespace MarketPulse

/-- A document of the `users` collection (fields the core logic reads). -/
structure User where
  email : String
  role : String
deriving DecidableEq, Repr

/-- A document of the `vendorApplications` collection. -/
structure VendorApp where
  id : String
  email : String
  vendor_status : String
deriving DecidableEq, Repr

/-- A document of the `products` collection.  `pricePerUnit` is the result of
`parseFloat` on the stored value (`none` = not numeric). -/
structure Product where
  id : String
  vendorEmail : String
  vendorName : Option String
  itemName : Option String
  image : Option String
  marketName : Option String
  pricePerUnit : Option ℚ
  status : String
deriving DecidableEq, Repr

/-- A document of the `cart` collection. -/
structure CartItem where
  id : String
  buyerEmail : String
  productId : String
  quantity : Int
deriving DecidableEq, Repr

/-- A document of the `wishLists` collection. -/
structure WishItem where
  email : String
  productId : String
deriving DecidableEq, Repr

/-- One line item stored inside a payment document. -/
structure PayItem where
  productId : String
  itemName : Option String
  image : Option String
  price : Option ℚ
  pricePerUnit : Option ℚ
  quantity : Option Int
deriving DecidableEq, Repr

/-- A document of the `payments` collection. -/
structure Payment where
  id : String
  buyerEmail : String
  buyerName : String
  status : String
  amount : Option ℚ
  paidAt : Option Nat
  items : List PayItem
deriving DecidableEq, Repr

/-- The whole document store. -/
structure DB where
  users : List User
  vendorApps : List VendorApp
  products : List Product
  cart : List CartItem
  wishlists : List WishItem
  payments : List Payment
deriving DecidableEq, Repr

def emptyDB : DB := ⟨[], [], [], [], [], []⟩

/-- `updateOne(filter, {$set: ...})`: rewrite the first matching document. -/
def updateFirst (p : α → Bool) (f : α → α) : List α → List α
  | [] => []
  | a :: rest => if p a then f a :: rest else a :: updateFirst p f rest

/-- `deleteOne(filter)`: remove the first matching document. -/
def eraseFirst (p : α → Bool) : List α → List α
  | [] => []
  | a :: rest => if p a then rest else a :: eraseFirst p rest

/-- `productCollections.findOne({_id})`. -/
def findProduct (db : DB) (pid : String) : Option Product :=
  db.products.find? (fun p => p.id = pid)

/-- `usersCollection.findOne({email})`. -/
def findUser (db : DB) (email : String) : Option User :=
  db.users.find? (fun u => u.email = email)

/-- JavaScript `Math.round`: round half toward positive infinity. -/
def jsRound (q : ℚ) : Int := ⌊q + 1/2⌋

/-- A signed token: jsonwebtoken as an opaque sign/verify pair.  `exp` is the
expiry claim; `key` records which secret produced the signature. -/
structure Token where
  email : String
  exp : Option Nat
  key : String
deriving DecidableEq, Repr

/-- `jwt.sign(payload, secret, options?)`. -/
def jwtSign (secret email : String) (e : Option Nat) : Token :=
  ⟨email, e, secret⟩

/-- `jwt.verify(token, secret)` at current time `now`: fails on a wrong key or
an expired `exp` claim, otherwise yields the embedded email. -/
def jwtVerify (secret : String) (now : Nat) (t : Token) : Option String :=
  if t.key = secret then
    match t.exp with
    | some e => if e ≤ now then none else some t.email
    | none => some t.email
  else none

/-- `POST /jwt`: signs `{ email }` from the request body with the secret key;
no authentication, no directory lookup, no `expiresIn` option. -/
def jwtRoute (secret email : String) : Token :=
  jwtSign secret email none

/-- The `Authorization` header, as the middleware case-splits on it: either a
well-formed `Bearer <token>` or something that does not start with it. -/
inductive AuthHeader where
  | bearer (t : Token)
  | malformed
deriving DecidableEq, Repr

/-- `verifyToken` middleware: 401 when the header is absent or not of the
`Bearer` shape, 403 when verification fails, otherwise the decoded email. -/
def verifyToken (secret : String) (now : Nat) (h : Option AuthHeader) :
    Except Nat String :=
  match h with
  | none => .error 401
  | some .malformed => .error 401
  | some (.bearer t) =>
    match jwtVerify secret now t with
    | none => .error 403
    | some email => .ok email

/-- `verifyTokenEmail` middleware: 403 unless the query email equals the
decoded email. -/
def verifyTokenEmail (queryEmail : Option String) (decodedEmail : String) :
    Option Nat :=
  if queryEmail = some decodedEmail then none else some 403

/-- `verifyRole(...expectedRoles)` middleware body: 401 when no email was
decoded, otherwise look the user up and test `expectedRoles.includes(user?.role)`
(403 when the user record is missing or its role is not accepted).
Returns `none` when the request may proceed. -/
def verifyRoleCheck (expectedRoles : List String) (db : DB)
    (decodedEmail : Option String) : Option Nat :=
  match decodedEmail with
  | none => some 401
  | some email =>
    match (findUser db email).map (fun u => u.role) with
    | some r => if expectedRoles.contains r then none else some 403
    | none => some 403

/-- One entry of the `items` array sent to `POST /create-payment-intent-cart`.
`quantity` is the result of `parseInt(item.quantity)` (`none` = NaN); `price`
is the client-supplied price, which the handler never reads. -/
structure ItemReq where
  productId : String
  quantity : Option Int
  price : Option ℚ
deriving DecidableEq, Repr

/-- Outcome of a payment-intent handler: an error response sent before the
provider is contacted, or a `stripe.paymentIntents.create` call carrying the
computed minor-unit amount. -/
inductive IntentResult where
  | rejected (status : Nat)
  | providerCall (amountCents : Int)
deriving DecidableEq, Repr

/-- One iteration of the validation of `POST /create-payment-intent-cart`:
re-fetch the product (`missing` when absent), then `parseFloat` its
`pricePerUnit` and `parseInt` the requested quantity (`notNumeric` when
either is NaN). -/
inductive ItemCheck where
  | missing
  | notNumeric
  | ok (price : ℚ) (qty : Int)
deriving DecidableEq, Repr

/-- The per-item lookup-and-parse step of the cart intent loop. -/
def checkItem (db : DB) (item : ItemReq) : ItemCheck :=
  match findProduct db item.productId with
  | none => .missing
  | some product =>
    match product.pricePerUnit, item.quantity with
    | some pr, some q => .ok pr q
    | some _, none => .notNumeric
    | none, _ => .notNumeric

/-- The validation loop of `POST /create-payment-intent-cart`: a missing
product responds 404, a NaN price/quantity responds 400, and otherwise
`productPrice * itemQuantity` accumulates into the running total. -/
def cartIntentLoop (db : DB) : List ItemReq → ℚ → Except IntentResult ℚ
  | [], total => .ok total
  | item :: rest, total =>
    match checkItem db item with
    | .missing => .error (.rejected 404)
    | .notNumeric => .error (.rejected 400)
    | .ok pr q => cartIntentLoop db rest (total + pr * (q : ℚ))

/-- `POST /create-payment-intent-cart`: reject an empty items array, run the
validation loop, convert the total to cents with `Math.round`, reject amounts
below 50 minor units, and otherwise call the provider with that amount. -/
def createPaymentIntentCart (db : DB) (items : List ItemReq) : IntentResult :=
  if items = [] then .rejected 400
  else
    match cartIntentLoop db items 0 with
    | .error r => r
    | .ok totalAmount =>
      let amount := jsRound (totalAmount * 100)
      if amount < 50 then .rejected 400 else .providerCall amount

/-- `POST /create-payment-intent` (single item): the price comes from the
request body (`!price || isNaN(price)` rejects `0`, a missing value, and NaN);
the catalog store and the referenced product id are never consulted. -/
def createPaymentIntent (db : DB) (price : Option ℚ) (productId : String) :
    IntentResult :=
  match price with
  | none => .rejected 400
  | some p =>
    if p = 0 then .rejected 400
    else .providerCall (jsRound (p * 100))

/-- Resolution of a cart request against the catalog: the list of
(server price, quantity) pairs the validation loop would traverse, or `none`
when some product is missing or some price/quantity fails to parse. -/
def resolvedPairs (db : DB) : List ItemReq → Option (List (ℚ × Int))
  | [] => some []
  | item :: rest =>
    match checkItem db item with
    | .ok pr q => (resolvedPairs db rest).map (fun l => (pr, q) :: l)
    | _ => none

/-- Σ (server price × quantity) over resolved pairs. -/
def lineTotal (pairs : List (ℚ × Int)) : ℚ :=
  (pairs.map (fun pq => pq.1 * (pq.2 : ℚ))).sum

/-- Catalog fixture: a product of vendor v1 priced $10.00. -/
def productA : Product :=
  ⟨"p1", "v1@x.com", some "V1", some "Tomato", some "img1", some "M1",
    some 10, "approved"⟩

/-- Catalog fixture: a product of vendor v2 priced $5.50. -/
def productB : Product :=
  ⟨"p2", "v2@x.com", some "V2", some "Onion", some "img2", some "M2",
    some (11/2), "approved"⟩

/-- Store fixture holding the two demo products. -/
def demoCartDB : DB := { emptyDB with products := [productA, productB] }

/-- Request fixture: $10.00 product twice and $5.50 product once, with
client-supplied prices that disagree with the catalog. -/
def demoItems : List ItemReq :=
  [⟨"p1", some 2, some 999⟩, ⟨"p2", some 1, some 1⟩]

/-- JavaScript `x || y` on a possibly-absent string (`""` is falsy). -/
def strOrD (a : Option String) (d : String) : String :=
  match a with
  | some s => if s = "" then d else s
  | none => d

/-- JavaScript `x || y` on a possibly-absent number (`0` is falsy). -/
def numOr (a : Option ℚ) (b : Option ℚ) : Option ℚ :=
  match a with
  | some x => if x = 0 then b else some x
  | none => b

/-- JavaScript `item.quantity || 1` (`0` and absence both fall back to 1). -/
def jsQty (q : Option Int) : Int :=
  match q with
  | some n => if n = 0 then 1 else n
  | none => 1

/-- `POST /wishlist` handler: 400 when email or productId is absent, 409 when
the (email, productId) pair already exists, otherwise insert and answer 200.
The route registers no middleware, so this is the whole route. -/
def wishlistPost (db : DB) (queryEmail productId : Option String) : Nat × DB :=
  match queryEmail, productId with
  | some email, some pid =>
    if (db.wishlists.find? (fun w => w.email = email ∧ w.productId = pid)).isSome
    then (409, db)
    else (200, { db with wishlists := db.wishlists ++ [⟨email, pid⟩] })
  | _, _ => (400, db)

/-- The `POST /wishlist` route: `app.post("/wishlist", handler)` — the
Authorization header is never inspected. -/
def wishlistPostRoute (db : DB) (auth : Option AuthHeader)
    (queryEmail productId : Option String) : Nat × DB :=
  wishlistPost db queryEmail productId

/-- `GET /get-wishlist` handler: 400 without an email, otherwise the products
whose ids appear in the caller's wishlist entries. -/
def getWishlist (db : DB) (queryEmail : Option String) :
    Except Nat (List Product) :=
  match queryEmail with
  | none => .error 400
  | some email =>
    let wishlistItems := db.wishlists.filter (fun w => w.email = email)
    let productIds := wishlistItems.map (fun w => w.productId)
    .ok (db.products.filter (fun p => productIds.contains p.id))

/-- The `GET /get-wishlist` route with its full middleware chain
(verifyToken, verifyTokenEmail, verifyRole("user")). -/
def getWishlistRoute (secret : String) (now : Nat) (db : DB)
    (auth : Option AuthHeader) (queryEmail : Option String) :
    Except Nat (List Product) :=
  match verifyToken secret now auth with
  | .error s => .error s
  | .ok decodedEmail =>
    match verifyTokenEmail queryEmail decodedEmail with
    | some s => .error s
    | none =>
      match verifyRoleCheck ["user"] db (some decodedEmail) with
      | some s => .error s
      | none => getWishlist db queryEmail

/-- `DELETE /delete-wishlist/:id` handler: the deletion filter is
`{ productId: wishlistId }` — the caller's email is read but not used. -/
def deleteWishlist (db : DB) (queryEmail : Option String) (idParam : String) :
    Nat × DB :=
  let remaining := eraseFirst (fun w => w.productId = idParam) db.wishlists
  (200, { db with wishlists := remaining })

/-- The `DELETE /delete-wishlist/:id` route with its middleware chain
(verifyToken, verifyTokenEmail, verifyRole("user")). -/
def deleteWishlistRoute (secret : String) (now : Nat) (db : DB)
    (auth : Option AuthHeader) (queryEmail : Option String) (idParam : String) :
    Nat × DB :=
  match verifyToken secret now auth with
  | .error s => (s, db)
  | .ok decodedEmail =>
    match verifyTokenEmail queryEmail decodedEmail with
    | some s => (s, db)
    | none =>
      match verifyRoleCheck ["user"] db (some decodedEmail) with
      | some s => (s, db)
      | none => deleteWishlist db queryEmail idParam

/-- The findOne filter of `PATCH /cart/update/:itemId`:
`{ _id: itemId, buyerEmail: email }`. -/
def cartFilter (itemId email : String) : CartItem → Bool :=
  fun c => c.id = itemId ∧ c.buyerEmail = email

/-- The branch of the cart-quantity handler once the item is found: a
decrease at quantity ≤ 1 is rejected with 400, otherwise `$inc` by ±1 on the
first matching document. -/
def cartUpdateFound (db : DB) (itemId email action : String)
    (cartItem : CartItem) : Nat × DB :=
  if action = "decrease" ∧ cartItem.quantity ≤ 1 then (400, db)
  else
    let increment : Int := if action = "increase" then 1 else -1
    let newCart := updateFirst (cartFilter itemId email)
      (fun c => { c with quantity := c.quantity + increment }) db.cart
    (200, { db with cart := newCart })

/-- `PATCH /cart/update/:itemId` handler: 400 on an unknown action, 404 when
no cart item matches (id, buyerEmail), otherwise the found-item branch. -/
def cartUpdate (db : DB) (itemId email action : String) : Nat × DB :=
  if action = "increase" ∨ action = "decrease" then
    match db.cart.find? (cartFilter itemId email) with
    | none => (404, db)
    | some cartItem => cartUpdateFound db itemId email action cartItem
  else (400, db)

/-- `vendorsCollection.findOne({_id})`. -/
def findVendorApp (db : DB) (vid : String) : Option VendorApp :=
  db.vendorApps.find? (fun a => a.id = vid)

/-- `PATCH /vendor-requests/:vendorId` handler: reject an invalid status
value (400) or an unknown application (404); refuse to re-decide an
application already approved or rejected (400, store untouched); otherwise
set the new status and, when approving, promote the applicant user's role to
vendor. -/
def updateVendorRequest (db : DB) (vendorId status : String) : Nat × DB :=
  if status = "pending" ∨ status = "approved" ∨ status = "rejected" then
    match findVendorApp db vendorId with
    | none => (404, db)
    | some vendorApplication =>
      if vendorApplication.vendor_status = "approved" ∨
          vendorApplication.vendor_status = "rejected" then (400, db)
      else
        let newApps := updateFirst (fun a => a.id = vendorId)
          (fun a => { a with vendor_status := status }) db.vendorApps
        let db1 := { db with vendorApps := newApps }
        let db2 :=
          if status = "approved" then
            let newUsers := updateFirst (fun u => u.email = vendorApplication.email)
              (fun u => { u with role := "vendor" }) db1.users
            { db1 with users := newUsers }
          else db1
        (200, db2)
  else (400, db)

/-- `paymentCollection.find({status: "paid"})`. -/
def paidPayments (db : DB) : List Payment :=
  db.payments.filter (fun p => p.status = "paid")

/-- One flattened line-item record of the `GET /admin/orders` projection. -/
structure AdminOrderRec where
  productDocId : String
  orderId : String
  buyerName : String
  buyerEmail : String
  status : String
  paidAt : Option Nat
  price : Option ℚ
  productId : String
  productName : String
  vendorEmail : String
  vendorName : String
  productImage : String
  marketName : String
  quantity : Int
deriving DecidableEq, Repr

/-- Projection of one admin-view line item.  The source reads `product._id`
without optional chaining, so a missing product throws a TypeError that the
surrounding catch turns into a 500 response — modelled as `.error 500`. -/
def adminOrderRec (db : DB) (payment : Payment) (item : PayItem) :
    Except Nat AdminOrderRec :=
  match findProduct db item.productId with
  | none => .error 500
  | some product =>
    .ok { productDocId := product.id
          orderId := payment.id
          buyerName := payment.buyerName
          buyerEmail := payment.buyerEmail
          status := payment.status
          paidAt := payment.paidAt
          price := numOr item.price (numOr item.pricePerUnit payment.amount)
          productId := item.productId
          productName := strOrD product.itemName
            (strOrD item.itemName "Unknown Product")
          vendorEmail := strOrD (some product.vendorEmail) "N/A"
          vendorName := strOrD product.vendorName "N/A"
          productImage := strOrD product.image (strOrD item.image "")
          marketName := strOrD product.marketName "Unknown Market"
          quantity := jsQty item.quantity }

/-- The inner admin-view loop over one payment's line items; the first
missing product aborts with 500. -/
def adminOrderItems (db : DB) (payment : Payment) :
    List PayItem → Except Nat (List AdminOrderRec)
  | [] => .ok []
  | item :: rest =>
    match adminOrderRec db payment item with
    | .error s => .error s
    | .ok r => (adminOrderItems db payment rest).map (fun l => r :: l)

/-- The outer admin-view loop over the fetched page of paid payments. -/
def adminOrderScan (db : DB) : List Payment → Except Nat (List AdminOrderRec)
  | [] => .ok []
  | payment :: rest =>
    match adminOrderItems db payment payment.items with
    | .error s => .error s
    | .ok rs => (adminOrderScan db rest).map (fun l => rs ++ l)

/-- `GET /admin/orders`: store-level pagination over paid payments
(skip/limit), then the flattening loop; any missing product fails the whole
request with 500. -/
def adminOrders (db : DB) (page limit : Nat) :
    Except Nat (List AdminOrderRec × Nat) :=
  let skip := (page - 1) * limit
  let payments := ((paidPayments db).drop skip).take limit
  let totalOrders := (paidPayments db).length
  match adminOrderScan db payments with
  | .error s => .error s
  | .ok orders => .ok (orders, (totalOrders + limit - 1) / limit)

/-- One flattened line-item record of the `GET /vendor/orders` projection. -/
structure VendorOrderRec where
  orderId : String
  buyerName : String
  buyerEmail : String
  status : String
  paidAt : Option Nat
  price : Option ℚ
  productId : String
  productName : String
  vendorEmail : String
  vendorName : String
  productImage : String
  marketName : String
  quantity : Int
deriving DecidableEq, Repr

/-- Projection of one vendor-view line item: `none` when the product cannot
be resolved or belongs to another vendor (`continue` in the source). -/
def vendorItemRec (db : DB) (vendorEmail : String) (payment : Payment)
    (item : PayItem) : Option VendorOrderRec :=
  match findProduct db item.productId with
  | none => none
  | some product =>
    if product.vendorEmail = vendorEmail then
      some { orderId := payment.id
             buyerName := payment.buyerName
             buyerEmail := payment.buyerEmail
             status := payment.status
             paidAt := payment.paidAt
             price := numOr item.price (numOr item.pricePerUnit payment.amount)
             productId := item.productId
             productName := strOrD product.itemName
               (strOrD item.itemName "Unknown Product")
             vendorEmail := product.vendorEmail
             vendorName := strOrD product.vendorName "N/A"
             productImage := strOrD product.image (strOrD item.image "")
             marketName := strOrD product.marketName "Unknown Market"
             quantity := jsQty item.quantity }
    else none

/-- The full vendor-scoped flattened record list: all paid payments are
fetched (no store-level pagination) and filtered per item after product
resolution. -/
def vendorOrderRecords (db : DB) (vendorEmail : String) :
    List VendorOrderRec :=
  (paidPayments db).flatMap (fun payment =>
    payment.items.filterMap (vendorItemRec db vendorEmail payment))

/-- `GET /vendor/orders`: build the filtered in-memory record list, then
paginate it with `slice(skip, skip + limit)`. -/
def vendorOrders (db : DB) (vendorEmail : String) (page limit : Nat) :
    List VendorOrderRec × Nat :=
  let skip := (page - 1) * limit
  let orders := vendorOrderRecords db vendorEmail
  (((orders.drop skip).take limit), (orders.length + limit - 1) / limit)

/-- Fixture: a paid payment whose single line item references a product
absent from the catalog. -/
def badPayment : Payment :=
  ⟨"pay2", "buyer@x.com", "Buyer", "paid", none, some 5,
    [⟨"p404", some "Ghost", none, none, none, some 1⟩]⟩

/-- Fixture: a paid payment whose single line item resolves to `productA`. -/
def goodPayment : Payment :=
  ⟨"pay1", "buyer@x.com", "Buyer", "paid", none, some 4,
    [⟨"p1", none, none, none, none, some 2⟩]⟩

/-- Fixture store for the admin-orders crash: one resolvable and one
unresolvable line item among the paid payments. -/
def adminCrashDB : DB :=
  { emptyDB with products := [productA], payments := [goodPayment, badPayment] }

/-- Fixture store for the vendor-orders projection: vendor v1's product and
one paid payment referencing it. -/
def vendorDemoDB : DB :=
  { emptyDB with products := [productA, productB], payments := [goodPayment] }

/-- Fixture: a directory user with role `user`. -/
def userAlice : User := ⟨"alice@x.com", "user"⟩

/-- Fixture: a second directory user with role `user`. -/
def userBob : User := ⟨"bob@x.com", "user"⟩

/-- Fixture store for the role-check: one plain user in the directory. -/
def roleDemoDB : DB := { emptyDB with users := [userAlice] }

/-- Fixture: a vendor application still pending. -/
def pendingApp : VendorApp := ⟨"v1", "alice@x.com", "pending"⟩

/-- Fixture: a vendor application already approved. -/
def decidedApp : VendorApp := ⟨"v2", "bob@x.com", "approved"⟩

/-- Fixture store for the vendor-application decision flow. -/
def vendorAppDB : DB :=
  { emptyDB with users := [userAlice, userBob],
                 vendorApps := [pendingApp, decidedApp] }

/-- Fixture: a cart item at the quantity floor. -/
def cartItem1 : CartItem := ⟨"c1", "alice@x.com", "p1", 1⟩

/-- Fixture store for the cart-quantity floor. -/
def cartDemoDB : DB := { emptyDB with cart := [cartItem1] }

/-- Fixture: Alice's wishlist entry for product p9. -/
def wishAlice : WishItem := ⟨"alice@x.com", "p9"⟩

/-- Fixture: Bob's wishlist entry for the same product p9. -/
def wishBob : WishItem := ⟨"bob@x.com", "p9"⟩

/-- Fixture store where two distinct users hold wishlist entries for the
same product. -/
def wishDemoDB : DB :=
  { emptyDB with users := [userBob], wishlists := [wishAlice, wishBob] }

/-- The vendor-view record produced for `goodPayment`'s line item. -/
def goodRecord : VendorOrderRec :=
  ⟨"pay1", "Buyer", "buyer@x.com", "paid", some 4, none, "p1",
    "Tomato", "v1@x.com", "V1", "img1", "M1", 2⟩

/-- C5: the token-issuing endpoint signs a token for any supplied email with
no caller authentication, no directory check and no expiry claim, and the
token-verification middleware accepts that token — at every time `now`, for
every email — decoding exactly that email as the identity claim. -/
theorem jwt_route_token_always_accepted (secret email : String) (now : Nat) :
    jwtRoute secret email = jwtSign secret email none ∧
    verifyToken secret now (some (.bearer (jwtRoute secret email))) =
      .ok email := by
  refine ⟨rfl, ?_⟩
  simp [verifyToken, jwtRoute, jwtSign, jwtVerify]


/-- A missing product makes the per-item check fail as `missing`. -/
theorem checkItem_missing (db : DB) (i : ItemReq)
    (h : findProduct db i.productId = none) : checkItem db i = .missing := by
  simp [checkItem, h]

/-- The per-item check never reads the client-supplied `price` field. -/
theorem checkItem_price_irrelevant (db : DB) (f : ItemReq → Option ℚ)
    (i : ItemReq) : checkItem db { i with price := f i } = checkItem db i := rfl

/-- The validation loop never reads the client-supplied `price` fields. -/
theorem cartIntentLoop_price_irrelevant (db : DB) (f : ItemReq → Option ℚ) :
    ∀ (items : List ItemReq) (total : ℚ),
      cartIntentLoop db (items.map (fun i => { i with price := f i })) total =
        cartIntentLoop db items total := by
  intro items
  induction items with
  | nil => intro _; rfl
  | cons item rest ih =>
    intro total
    simp only [List.map_cons, cartIntentLoop, checkItem_price_irrelevant]
    cases hc : checkItem db item with
    | missing => rfl
    | notNumeric => rfl
    | ok pr q => exact ih _

/-- The cart handler never reads the client-supplied `price` fields. -/
theorem createPaymentIntentCart_price_irrelevant (db : DB)
    (f : ItemReq → Option ℚ) (items : List ItemReq) :
    createPaymentIntentCart db (items.map (fun i => { i with price := f i })) =
      createPaymentIntentCart db items := by
  simp only [createPaymentIntentCart, List.map_eq_nil_iff,
    cartIntentLoop_price_irrelevant db f items]

/-- A missing product makes the validation loop fail with a 400 or 404
rejection, whatever the running total. -/
theorem cartIntentLoop_missing_product (db : DB) :
    ∀ items : List ItemReq, (∃ i ∈ items, findProduct db i.productId = none) →
      ∀ total : ℚ, ∃ c, (c = 400 ∨ c = 404) ∧
        cartIntentLoop db items total = .error (.rejected c) := by
  intro items
  induction items with
  | nil => rintro ⟨i, hi, _⟩ _; exact absurd hi (List.not_mem_nil i)
  | cons item rest ih =>
    rintro ⟨i, hi, hmiss⟩ total
    cases hc : checkItem db item with
    | missing => exact ⟨404, Or.inr rfl, by simp [cartIntentLoop, hc]⟩
    | notNumeric => exact ⟨400, Or.inl rfl, by simp [cartIntentLoop, hc]⟩
    | ok pr q =>
      rcases List.mem_cons.mp hi with rfl | hrest
      · rw [checkItem_missing db i hmiss] at hc
        simp at hc
      · obtain ⟨c, hcc, hloop⟩ := ih ⟨i, hrest, hmiss⟩ (total + pr * (q : ℚ))
        refine ⟨c, hcc, ?_⟩
        simp only [cartIntentLoop, hc]
        exact hloop

/-- When every item resolves, the loop returns the accumulated server total. -/
theorem cartIntentLoop_resolved (db : DB) :
    ∀ (items : List ItemReq) (pairs : List (ℚ × Int)),
      resolvedPairs db items = some pairs →
      ∀ total : ℚ,
        cartIntentLoop db items total = .ok (total + lineTotal pairs) := by
  intro items
  induction items with
  | nil =>
    intro pairs hres total
    simp only [resolvedPairs, Option.some.injEq] at hres
    subst hres
    simp [cartIntentLoop, lineTotal]
  | cons item rest ih =>
    intro pairs hres total
    cases hc : checkItem db item with
    | missing =>
      simp only [resolvedPairs, hc] at hres
      exact absurd hres (by simp)
    | notNumeric =>
      simp only [resolvedPairs, hc] at hres
      exact absurd hres (by simp)
    | ok pr q =>
      simp only [resolvedPairs, hc] at hres
      cases hrest : resolvedPairs db rest with
      | none => rw [hrest] at hres; exact absurd hres (by simp)
      | some prs =>
        rw [hrest] at hres
        have hp : (pr, q) :: prs = pairs := by simpa using hres
        subst hp
        simp only [cartIntentLoop, hc]
        rw [ih prs hrest]
        have hl : lineTotal ((pr, q) :: prs) = pr * (q : ℚ) + lineTotal prs := by
          simp [lineTotal]
        rw [hl, add_assoc]

/-- C1 counterexample: a single-item payment-intent request whose referenced
product does not exist in the catalog is not rejected; the handler reaches the
provider call, charging the client-supplied price ($7.00 → 700 minor units)
without consulting the catalog store. -/
theorem single_intent_client_price_counterexample :
    findProduct emptyDB "p404" = none ∧
    createPaymentIntent emptyDB (some 7) "p404" = .providerCall 700 := by
  refine ⟨rfl, ?_⟩
  have e : jsRound ((7 : ℚ) * 100) = 700 := by
    simp only [jsRound]
    exact Int.floor_eq_iff.mpr ⟨by norm_num, by norm_num⟩
  simp only [createPaymentIntent]
  rw [if_neg (by norm_num : ¬(7 : ℚ) = 0), e]

/-- C1 (amended): for the multi-item cart route, prices are determined by
re-fetching each referenced product from the catalog — the client-supplied
item prices are ignored — and a missing referenced product makes the request
fail with a 400 or 404 rejection before any provider call.  (The single-item
route, by contrast, charges the client-supplied price without consulting the
catalog, as the counterexample records.) -/
theorem cart_intent_refetches_and_rejects_missing (db : DB)
    (items : List ItemReq)
    (hmiss : ∃ i ∈ items, findProduct db i.productId = none) :
    (∃ c, (c = 400 ∨ c = 404) ∧
      createPaymentIntentCart db items = .rejected c) ∧
    ∀ f : ItemReq → Option ℚ,
      createPaymentIntentCart db (items.map (fun i => { i with price := f i })) =
        createPaymentIntentCart db items := by
  have hne : items ≠ [] := by
    rintro rfl
    rcases hmiss with ⟨i, hi, _⟩
    exact absurd hi (List.not_mem_nil i)
  refine ⟨?_, fun f => createPaymentIntentCart_price_irrelevant db f items⟩
  obtain ⟨c, hcc, hloop⟩ := cartIntentLoop_missing_product db items hmiss 0
  refine ⟨c, hcc, ?_⟩
  simp only [createPaymentIntentCart]
  rw [if_neg hne, hloop]

/-- C1 witness. -/
theorem cart_intent_refetches_and_rejects_missing_witness :
    ∃ c, (c = 400 ∨ c = 404) ∧
      createPaymentIntentCart demoCartDB [⟨"p404", some 1, some 99⟩] =
        .rejected c :=
  (cart_intent_refetches_and_rejects_missing demoCartDB
    [⟨"p404", some 1, some 99⟩]
    ⟨⟨"p404", some 1, some 99⟩, List.mem_singleton.mpr rfl, rfl⟩).1

/-- C9: when every cart item resolves against the catalog, the amount handed
to the provider is `Math.round` of 100 × Σ(server price × quantity) — the
client-supplied prices play no role — and a computed amount below 50 minor
units is rejected with a 400 response before the provider call. -/
theorem cart_intent_charge_amount (db : DB) (items : List ItemReq)
    (pairs : List (ℚ × Int)) (hres : resolvedPairs db items = some pairs)
    (hne : items ≠ []) :
    (jsRound (lineTotal pairs * 100) < 50 →
      createPaymentIntentCart db items = .rejected 400) ∧
    (50 ≤ jsRound (lineTotal pairs * 100) →
      createPaymentIntentCart db items =
        .providerCall (jsRound (lineTotal pairs * 100))) ∧
    ∀ f : ItemReq → Option ℚ,
      createPaymentIntentCart db (items.map (fun i => { i with price := f i })) =
        createPaymentIntentCart db items := by
  have hloop := cartIntentLoop_resolved db items pairs hres 0
  rw [zero_add] at hloop
  refine ⟨?_, ?_, fun f => createPaymentIntentCart_price_irrelevant db f items⟩
  · intro hlt
    simp only [createPaymentIntentCart]
    rw [if_neg hne, hloop]
    show (if jsRound (lineTotal pairs * 100) < 50 then IntentResult.rejected 400
      else .providerCall (jsRound (lineTotal pairs * 100))) = _
    rw [if_pos hlt]
  · intro hge
    simp only [createPaymentIntentCart]
    rw [if_neg hne, hloop]
    show (if jsRound (lineTotal pairs * 100) < 50 then IntentResult.rejected 400
      else .providerCall (jsRound (lineTotal pairs * 100))) = _
    rw [if_neg (not_lt.mpr hge)]

/-- C9 witness: the $10.00×2 + $5.50×1 cart is charged 2550 minor units even
though the request body carries different client prices. -/
theorem cart_intent_charge_amount_witness :
    createPaymentIntentCart demoCartDB demoItems = .providerCall 2550 := by
  have hl : lineTotal [((10 : ℚ), (2 : ℤ)), (11/2, 1)] * 100 = 2550 := by
    norm_num [lineTotal]
  have e : jsRound (lineTotal [((10 : ℚ), (2 : ℤ)), (11/2, 1)] * 100) = 2550 := by
    simp only [jsRound, hl]
    exact Int.floor_eq_iff.mpr ⟨by norm_num, by norm_num⟩
  have h := (cart_intent_charge_amount demoCartDB demoItems
      [(10, 2), (11/2, 1)] rfl (by decide)).2.1 (by rw [e]; decide)
  rw [e] at h
  exact h

/-- C2: the `POST /wishlist` route registers no authentication middleware —
a request with no Authorization header at all reaches the handler, which
inserts the entry and answers 200; the gated `GET /get-wishlist` route
answers 401 Unauthorized to the same credential-less caller. -/
theorem wishlist_post_route_unauthenticated :
    wishlistPostRoute emptyDB none (some "u1@x.com") (some "p1") =
      (200, { emptyDB with wishlists := [⟨"u1@x.com", "p1"⟩] }) ∧
    getWishlistRoute "secret" 0 emptyDB none (some "u1@x.com") =
      .error 401 := by
  exact ⟨rfl, rfl⟩

/-- C3: in the admin orders view, a line item whose referenced product
cannot be resolved makes the whole request fail with 500 (the handler reads
`_id` of the null product before any placeholder substitution), and the
resolvable line item of the other paid payment is lost with it. -/
theorem admin_orders_missing_product_aborts :
    findProduct adminCrashDB "p404" = none ∧
    (∃ r, adminOrderRec adminCrashDB goodPayment
      ⟨"p1", none, none, none, none, some 2⟩ = .ok r) ∧
    adminOrders adminCrashDB 1 7 = .error 500 := by
  exact ⟨rfl, ⟨_, rfl⟩, rfl⟩

/-- C4 counterexample: when the verified email has no user record, the role
check answers 403 Forbidden, not 401 Unauthorized as the claim states. -/
theorem role_check_missing_record_counterexample :
    findUser emptyDB "ghost@x.com" = none ∧
    verifyRoleCheck ["admin"] emptyDB (some "ghost@x.com") = some 403 := by
  exact ⟨rfl, rfl⟩

/-- C4 (amended): the role gate answers 401 only when no verified email is
attached to the request context; when an email is present, a missing user
record and a role outside the accepted set both answer 403, and an accepted
role passes. -/
theorem role_check_amended (roles : List String) (db : DB) (e : String) :
    verifyRoleCheck roles db none = some 401 ∧
    (findUser db e = none → verifyRoleCheck roles db (some e) = some 403) ∧
    (∀ u, findUser db e = some u → roles.contains u.role = false →
      verifyRoleCheck roles db (some e) = some 403) ∧
    (∀ u, findUser db e = some u → roles.contains u.role = true →
      verifyRoleCheck roles db (some e) = none) := by
  refine ⟨rfl, ?_, ?_, ?_⟩
  · intro h
    simp [verifyRoleCheck, h]
  · intro u hu hr
    have hr2 : u.role ∉ roles := by simpa using hr
    simp [verifyRoleCheck, hu, hr2]
  · intro u hu hr
    have hr2 : u.role ∈ roles := by simpa using hr
    simp [verifyRoleCheck, hu, hr2]

/-- C4 witness. -/
theorem role_check_amended_witness :
    verifyRoleCheck ["admin"] roleDemoDB (some "alice@x.com") = some 403 ∧
    verifyRoleCheck ["admin"] roleDemoDB none = some 401 := by
  have h := role_check_amended ["admin"] roleDemoDB "alice@x.com"
  exact ⟨h.2.2.1 userAlice rfl rfl, h.1⟩

/-- C10: the wishlist deletion filter contains only the product id — the
handler's outcome is independent of the caller's email — so a delete request
removes the first stored entry for that product even when it belongs to a
different user. -/
theorem delete_wishlist_ignores_owner (queryEmail otherEmail : Option String)
    (e1 pid : String) (rest : List WishItem) (db : DB)
    (hdb : db.wishlists = ⟨e1, pid⟩ :: rest) :
    deleteWishlist db queryEmail pid = deleteWishlist db otherEmail pid ∧
    (deleteWishlist db queryEmail pid).2.wishlists = rest := by
  refine ⟨rfl, ?_⟩
  simp [deleteWishlist, hdb, eraseFirst]

/-- C10 witness: Bob's delete request for p9 removes Alice's entry while
Bob's own entry survives. -/
theorem delete_wishlist_ignores_owner_witness :
    deleteWishlist wishDemoDB (some "bob@x.com") "p9" =
      deleteWishlist wishDemoDB (some "alice@x.com") "p9" ∧
    (deleteWishlist wishDemoDB (some "bob@x.com") "p9").2.wishlists =
      [⟨"bob@x.com", "p9"⟩] := by
  exact delete_wishlist_ignores_owner (some "bob@x.com") (some "alice@x.com")
    "alice@x.com" "p9" [⟨"bob@x.com", "p9"⟩] wishDemoDB rfl

/-- Every element of `updateFirst p f l` satisfies `P` when every element of
`l` does and `f` preserves `P` on the element `find?` would return. -/
theorem updateFirst_forall {α : Type} (p : α → Bool) (f : α → α) (P : α → Prop)
    (l : List α) (hl : ∀ a ∈ l, P a)
    (hf : ∀ a, l.find? p = some a → P (f a)) :
    ∀ b ∈ updateFirst p f l, P b := by
  induction l with
  | nil => intro b hb; exact absurd hb (List.not_mem_nil b)
  | cons a rest ih =>
    intro b hb
    cases hp : p a with
    | true =>
      simp only [updateFirst] at hb
      rw [if_pos hp] at hb
      rcases List.mem_cons.mp hb with rfl | hbr
      · exact hf _ (List.find?_cons_of_pos rest hp)
      · exact hl b (List.mem_cons_of_mem a hbr)
    | false =>
      have hneg : ¬ p a = true := by simp [hp]
      simp only [updateFirst] at hb
      rw [if_neg hneg] at hb
      rcases List.mem_cons.mp hb with rfl | hbr
      · exact hl _ (List.mem_cons_self _ _)
      · refine ih (fun x hx => hl x (List.mem_cons_of_mem a hx)) ?_ b hbr
        intro x hx
        refine hf x ?_
        rw [List.find?_cons_of_neg rest hneg]
        exact hx

/-- `find?` after `updateFirst` with the same predicate returns the image of
the original hit, provided `f` keeps the predicate true. -/
theorem find?_updateFirst {α : Type} (p : α → Bool) (f : α → α)
    (hpf : ∀ a, p a = true → p (f a) = true) :
    ∀ l : List α, (updateFirst p f l).find? p = (l.find? p).map f := by
  intro l
  induction l with
  | nil => rfl
  | cons a rest ih =>
    cases hp : p a with
    | true =>
      simp only [updateFirst]
      rw [if_pos hp, List.find?_cons_of_pos rest (hpf a hp),
        List.find?_cons_of_pos rest hp]
      rfl
    | false =>
      have hneg : ¬ p a = true := by simp [hp]
      simp only [updateFirst]
      rw [if_neg hneg, List.find?_cons_of_neg (updateFirst p f rest) hneg,
        List.find?_cons_of_neg rest hneg, ih]

/-- C6: once a vendor application is approved or rejected, any further
status-update attempt answers 400 and leaves the store untouched; deciding a
pending application as approved answers 200, stores the approved status, and
sets the applicant user's role to vendor. -/
theorem vendor_application_decision (db : DB) (vendorId status : String)
    (app : VendorApp) (hfind : findVendorApp db vendorId = some app) :
    (app.vendor_status = "approved" ∨ app.vendor_status = "rejected" →
      updateVendorRequest db vendorId status = (400, db)) ∧
    (app.vendor_status = "pending" → status = "approved" →
      (updateVendorRequest db vendorId status).1 = 200 ∧
      findVendorApp (updateVendorRequest db vendorId status).2 vendorId =
        some { app with vendor_status := "approved" } ∧
      findUser (updateVendorRequest db vendorId status).2 app.email =
        (findUser db app.email).map (fun u => { u with role := "vendor" })) := by
  constructor
  · intro hdec
    by_cases hv : status = "pending" ∨ status = "approved" ∨ status = "rejected"
    · simp only [updateVendorRequest, hfind]
      rw [if_pos hv, if_pos hdec]
    · simp only [updateVendorRequest]
      rw [if_neg hv]
  · intro hpend hst
    subst hst
    have hdec : ¬ (app.vendor_status = "approved" ∨
        app.vendor_status = "rejected") := by
      rw [hpend]; simp
    have hresult : updateVendorRequest db vendorId "approved" =
        (200, { db with
          users := updateFirst (fun u => u.email = app.email)
            (fun u => { u with role := "vendor" }) db.users,
          vendorApps := updateFirst (fun a => a.id = vendorId)
            (fun a => { a with vendor_status := "approved" }) db.vendorApps }) := by
      simp [updateVendorRequest, hfind, hdec]
    rw [hresult]
    have hfind2 : db.vendorApps.find? (fun a => a.id = vendorId) = some app :=
      hfind
    refine ⟨rfl, ?_, ?_⟩
    · show (updateFirst (fun a => a.id = vendorId)
          (fun a => { a with vendor_status := "approved" })
          db.vendorApps).find? (fun a => a.id = vendorId) = _
      rw [find?_updateFirst (fun a => a.id = vendorId)
        (fun a => { a with vendor_status := "approved" })
        (fun a h => h) db.vendorApps, hfind2]
      rfl
    · show (updateFirst (fun u => u.email = app.email)
          (fun u => { u with role := "vendor" })
          db.users).find? (fun u => u.email = app.email) = _
      rw [find?_updateFirst (fun u => u.email = app.email)
        (fun u => { u with role := "vendor" })
        (fun u h => h) db.users]
      rfl

/-- C6 witness: approving the pending application stores the approved status
and promotes Alice to vendor; the already-approved application cannot be
re-decided. -/
theorem vendor_application_decision_witness :
    (updateVendorRequest vendorAppDB "v1" "approved").1 = 200 ∧
    findVendorApp (updateVendorRequest vendorAppDB "v1" "approved").2 "v1" =
      some ⟨"v1", "alice@x.com", "approved"⟩ ∧
    findUser (updateVendorRequest vendorAppDB "v1" "approved").2 "alice@x.com" =
      some ⟨"alice@x.com", "vendor"⟩ ∧
    updateVendorRequest vendorAppDB "v2" "rejected" = (400, vendorAppDB) := by
  have h := (vendor_application_decision vendorAppDB "v1" "approved"
    pendingApp rfl).2 rfl rfl
  have h2 := (vendor_application_decision vendorAppDB "v2" "rejected"
    decidedApp rfl).1 (Or.inl rfl)
  refine ⟨h.1, ?_, ?_, h2⟩
  · rw [h.2.1]
    rfl
  · show findUser (updateVendorRequest vendorAppDB "v1" "approved").2
      pendingApp.email = some ⟨"alice@x.com", "vendor"⟩
    rw [h.2.2]
    rfl

/-- C8: decreasing a cart item at quantity 1 answers 400 and leaves the
store unchanged; more generally, under the documented quantity ≥ 1
invariant, the adjust operation never takes any cart quantity below 1. -/
theorem cart_quantity_floor (db : DB) (itemId email action : String)
    (hfloor : ∀ c ∈ db.cart, 1 ≤ c.quantity) :
    (∀ item, db.cart.find? (cartFilter itemId email) = some item →
      item.quantity = 1 →
      cartUpdate db itemId email "decrease" = (400, db)) ∧
    (∀ c ∈ (cartUpdate db itemId email action).2.cart, 1 ≤ c.quantity) := by
  constructor
  · intro item hfind hq
    simp only [cartUpdate, hfind]
    simp only [or_true, false_or, if_true, reduceIte]
    simp [cartUpdateFound, hq]
  · by_cases hact : action = "increase" ∨ action = "decrease"
    · simp only [cartUpdate]
      rw [if_pos hact]
      cases hfind : db.cart.find? (cartFilter itemId email) with
      | none => exact hfloor
      | some item =>
        by_cases hguard : action = "decrease" ∧ item.quantity ≤ 1
        · simp only [cartUpdateFound]
          rw [if_pos hguard]
          exact hfloor
        · simp only [cartUpdateFound]
          rw [if_neg hguard]
          intro c hc
          refine updateFirst_forall (cartFilter itemId email) _
            (fun x => 1 ≤ x.quantity) db.cart hfloor ?_ c hc
          intro a ha
          rw [hfind] at ha
          injection ha with ha
          subst ha
          have hmem := hfloor item (List.mem_of_find?_eq_some hfind)
          show 1 ≤ item.quantity + (if action = "increase" then 1 else -1)
          rcases hact with hinc | hdecr
          · rw [if_pos hinc]
            omega
          · subst hdecr
            rw [if_neg (by decide : ¬ ("decrease" = "increase"))]
            have h2 : ¬ item.quantity ≤ 1 := fun hle => hguard ⟨rfl, hle⟩
            omega
    · simp only [cartUpdate]
      rw [if_neg hact]
      exact hfloor

/-- C8 witness: decreasing the quantity-1 cart item answers 400 and the
stored quantity stays at the floor. -/
theorem cart_quantity_floor_witness :
    cartUpdate cartDemoDB "c1" "alice@x.com" "decrease" = (400, cartDemoDB) ∧
    ∀ c ∈ (cartUpdate cartDemoDB "c1" "alice@x.com" "decrease").2.cart,
      1 ≤ c.quantity := by
  have h := cart_quantity_floor cartDemoDB "c1" "alice@x.com" "decrease"
    (by decide)
  exact ⟨h.1 cartItem1 rfl rfl, h.2⟩

/-- A produced vendor-view record carries the caller's vendor identity and a
resolvable product owned by that vendor. -/
theorem vendorItemRec_some (db : DB) (ve : String) (payment : Payment)
    (item : PayItem) (r : VendorOrderRec)
    (h : vendorItemRec db ve payment item = some r) :
    r.vendorEmail = ve ∧
    ∃ p, findProduct db r.productId = some p ∧ p.vendorEmail = ve := by
  cases hf : findProduct db item.productId with
  | none =>
    simp only [vendorItemRec, hf] at h
    exact Option.noConfusion h
  | some product =>
    simp only [vendorItemRec, hf] at h
    by_cases hv : product.vendorEmail = ve
    · rw [if_pos hv] at h
      injection h with h
      subst h
      exact ⟨hv, product, hf, hv⟩
    · rw [if_neg hv] at h
      exact absurd h (by simp)

/-- C7: every record in a vendor-orders page resolves to a product owned by
the caller (other vendors' line items and unresolvable line items are
excluded), and the page is a slice of the full filtered in-memory record
list — pagination happens after filtering, not at the store query. -/
theorem vendor_orders_scoped (db : DB) (ve : String) (page limit : Nat) :
    (∀ r ∈ (vendorOrders db ve page limit).1,
      r.vendorEmail = ve ∧
      ∃ p, findProduct db r.productId = some p ∧ p.vendorEmail = ve) ∧
    (vendorOrders db ve page limit).1 =
      ((vendorOrderRecords db ve).drop ((page - 1) * limit)).take limit := by
  constructor
  · intro r hr
    have hr2 : r ∈ ((vendorOrderRecords db ve).drop ((page - 1) * limit)).take
        limit := hr
    have hr1 : r ∈ vendorOrderRecords db ve :=
      List.mem_of_mem_drop (List.mem_of_mem_take hr2)
    obtain ⟨payment, hpay, hitem⟩ := List.mem_flatMap.mp hr1
    obtain ⟨item, hmemi, hsome⟩ := List.mem_filterMap.mp hitem
    exact vendorItemRec_some db ve payment item r hsome
  · rfl

/-- C7 witness: the only record on vendor v1's first page carries v1's
identity and resolves to v1's product p1. -/
theorem vendor_orders_scoped_witness :
    goodRecord.vendorEmail = "v1@x.com" ∧
    ∃ p, findProduct vendorDemoDB goodRecord.productId = some p ∧
      p.vendorEmail = "v1@x.com" := by
  have hmem : goodRecord ∈ (vendorOrders vendorDemoDB "v1@x.com" 1 7).1 := by
    show goodRecord ∈ [goodRecord]
    exact List.mem_singleton.mpr rfl
  exact (vendor_orders_scoped vendorDemoDB "v1@x.com" 1 7).1 goodRecord hmem

end MarketPulse
